import Mathlib

/-!
Shallow embedding of the aingle-sdk-python client (src/aingle_sdk/client.py and
src/aingle_sdk/types.py).  HTTP bodies are modelled as parsed JSON values; the
network and the remote node are modelled by an oracle giving the outcome of one
request.  Machine-level exceptions that the Python code can raise are modelled
explicitly, including the AIngleError type from types.py, so that statements
about which error a failure carries can be settled.
-/

namespace AIngle

/-- JSON values, the parsed form of request and response bodies and of
WebSocket frames after json.loads. -/
inductive Json where
  | null : Json
  | bool (b : Bool) : Json
  | num (n : Int) : Json
  | str (s : String) : Json
  | arr (xs : List Json) : Json
  | obj (kvs : List (String × Json)) : Json

/-- ErrorCode enum from types.py: the seven fixed error kinds. -/
inductive ErrorCode where
  | CONNECTION_FAILED
  | TIMEOUT
  | NOT_FOUND
  | INVALID_ENTRY
  | STORAGE_ERROR
  | NETWORK_ERROR
  | AUTH_ERROR
deriving DecidableEq

/-- Exceptions the client code can raise: the httpx transport and status
errors, the Python builtin KeyError and TypeError, and the AIngleError SDK
error type from types.py (constructible, carrying an ErrorCode kind). -/
inductive PyExc where
  | timeoutException : PyExc
  | connectError : PyExc
  | httpStatusError (status : Nat) : PyExc
  | keyError (key : String) : PyExc
  | typeError (msg : String) : PyExc
  | aingleError (code : ErrorCode) (msg : String) : PyExc

/-- The ErrorCode kind carried by a raised exception: only an AIngleError
carries one. -/
def PyExc.kindOf : PyExc → Option ErrorCode
  | .aingleError c _ => some c
  | _ => none

/-- Entry dataclass from types.py.  Python dataclasses perform no runtime type
checking, so each field holds whatever JSON value was passed to the
constructor. -/
structure Entry where
  hash : Json
  author : Json
  parents : Json
  data : Json
  timestamp : Json
  sequence : Json
  signature : Json

/-- NodeInfo dataclass from types.py, with the same no-runtime-check
semantics. -/
structure NodeInfo where
  node_id : Json
  version : Json
  uptime : Json
  entries_count : Json
  peers_count : Json
  storage_backend : Json
  features : Json

/-- The seven field names of the Entry dataclass. -/
def entryKeys : List String :=
  ["hash", "author", "parents", "data", "timestamp", "sequence", "signature"]

/-- Model of the call Entry(**d) on a parsed JSON body d: the body must be an
object; a missing required key or an unexpected key raises TypeError; values
are not type checked. -/
def Entry.ofJson : Json → Except PyExc Entry
  | .obj kvs =>
    match kvs.lookup "hash", kvs.lookup "author", kvs.lookup "parents",
        kvs.lookup "data", kvs.lookup "timestamp", kvs.lookup "sequence",
        kvs.lookup "signature" with
    | some h, some a, some p, some d, some t, some q, some g =>
      if kvs.all (fun kv => entryKeys.contains kv.1) then
        .ok { hash := h, author := a, parents := p, data := d,
              timestamp := t, sequence := q, signature := g }
      else .error (.typeError "unexpected keyword argument")
    | _, _, _, _, _, _, _ => .error (.typeError "missing required argument")
  | _ => .error (.typeError "argument after ** must be a mapping")

/-- The seven field names of the NodeInfo dataclass. -/
def nodeInfoKeys : List String :=
  ["node_id", "version", "uptime", "entries_count", "peers_count",
   "storage_backend", "features"]

/-- Model of the call NodeInfo(**d), with the same keyword semantics as
Entry.ofJson. -/
def NodeInfo.ofJson : Json → Except PyExc NodeInfo
  | .obj kvs =>
    match kvs.lookup "node_id", kvs.lookup "version", kvs.lookup "uptime",
        kvs.lookup "entries_count", kvs.lookup "peers_count",
        kvs.lookup "storage_backend", kvs.lookup "features" with
    | some n, some v, some u, some e, some p, some s, some f =>
      if kvs.all (fun kv => nodeInfoKeys.contains kv.1) then
        .ok { node_id := n, version := v, uptime := u, entries_count := e,
              peers_count := p, storage_backend := s, features := f }
      else .error (.typeError "unexpected keyword argument")
    | _, _, _, _, _, _, _ => .error (.typeError "missing required argument")
  | _ => .error (.typeError "argument after ** must be a mapping")

/-- Configuration for the AIngle client, from AIngleClientConfig in client.py.
The timeout is a real-valued number of seconds, modelled as a rational. -/
structure AIngleClientConfig where
  node_url : String
  ws_url : String
  timeout : Rat
  debug : Bool
deriving DecidableEq

/-- The default configuration values of AIngleClient. -/
def cfg0 : AIngleClientConfig :=
  { node_url := "http://localhost:8080", ws_url := "ws://localhost:8081",
    timeout := 30, debug := false }

/-- Model of an httpx AsyncClient handle, determined by the base_url and
timeout it was constructed with. -/
structure HttpClient where
  base_url : String
  timeout : Rat
deriving DecidableEq

/-- State of one AIngleClient instance together with the sockets and listener
tasks it has created.  The field http models self.m_http_client and ws models
self.m_ws (the id of the socket currently stored there).  sockets maps a
socket id to the number of close calls issued on it so far; tasks maps a
listener task id to whether it has been cancelled; nextId supplies fresh
ids. -/
structure World where
  http : Option HttpClient
  ws : Option Nat
  sockets : Nat → Nat
  tasks : Nat → Bool
  nextId : Nat

/-- A freshly constructed client: no HTTP client handle, no WebSocket. -/
def World.init : World :=
  { http := none, ws := none, sockets := fun _ => 0, tasks := fun _ => false,
    nextId := 0 }

/-- connect(): installs a fresh httpx AsyncClient bound to node_url with the
configured timeout, unconditionally overwriting any existing handle. -/
def connect (cfg : AIngleClientConfig) (w : World) : World :=
  { w with http := some { base_url := cfg.node_url, timeout := cfg.timeout } }

/-- Record one close call on socket sid. -/
def closeSock (sid : Nat) (f : Nat → Nat) : Nat → Nat :=
  fun i => if i = sid then f i + 1 else f i

/-- disconnect(): closes and clears the HTTP client if open, then closes and
clears the WebSocket if open. -/
def disconnect (w : World) : World :=
  let w1 : World :=
    match w.http with
    | some _ => { w with http := none }
    | none => w
  match w1.ws with
  | some sid => { w1 with ws := none, sockets := closeSock sid w1.sockets }
  | none => w1

/-- The lazy-connect step shared by the HTTP operations: connect when the HTTP
client handle is absent, otherwise keep the existing handle. -/
def ensureHttp (cfg : AIngleClientConfig) (w : World) : World :=
  match w.http with
  | some _ => w
  | none => connect cfg w

/-- One HTTP request as issued by the client. -/
structure Request where
  method : String
  path : String
  body : Option Json

/-- Outcome of one HTTP request, as produced by the network and the remote
node: a status plus JSON body, a timeout, or a refused connection. -/
inductive NetOutcome where
  | resp (status : Nat) (body : Json)
  | timeout
  | refused

/-- Success statuses: the 2xx range accepted by httpx raise_for_status. -/
def is2xx (s : Nat) : Bool := 200 ≤ s && s < 300

/-- create_entry(data): lazily connects, issues one POST to /api/v1/entries
with body data wrapped under the data key; a timeout raises TimeoutException
and a refused connection raises ConnectError; raise_for_status raises
HTTPStatusError on a non-2xx status; otherwise the hash item of the JSON body
is returned, a missing hash key raising KeyError and a non-object body raising
TypeError.  The returned triple is the new world, the requests issued, and the
result. -/
def create_entry (cfg : AIngleClientConfig) (data : Json) (net : NetOutcome)
    (w : World) : World × List Request × Except PyExc Json :=
  let w1 := ensureHttp cfg w
  let req : Request :=
    { method := "POST", path := "/api/v1/entries",
      body := some (.obj [("data", data)]) }
  match net with
  | .timeout => (w1, [req], .error .timeoutException)
  | .refused => (w1, [req], .error .connectError)
  | .resp s b =>
    if is2xx s then
      match b with
      | .obj kvs =>
        match kvs.lookup "hash" with
        | some v => (w1, [req], .ok v)
        | none => (w1, [req], .error (.keyError "hash"))
      | _ => (w1, [req], .error (.typeError "response body is not an object"))
    else (w1, [req], .error (.httpStatusError s))

/-- get_entry(hash): lazily connects, issues one GET to /api/v1/entries/hash;
a 404 status returns none before raise_for_status runs; any other non-2xx
status raises HTTPStatusError; a 2xx body is passed to Entry(**body). -/
def get_entry (cfg : AIngleClientConfig) (hash : String) (net : NetOutcome)
    (w : World) : World × List Request × Except PyExc (Option Entry) :=
  let w1 := ensureHttp cfg w
  let req : Request :=
    { method := "GET", path := "/api/v1/entries/" ++ hash, body := none }
  match net with
  | .timeout => (w1, [req], .error .timeoutException)
  | .refused => (w1, [req], .error .connectError)
  | .resp s b =>
    if s = 404 then (w1, [req], .ok none)
    else if is2xx s then
      match Entry.ofJson b with
      | .ok e => (w1, [req], .ok (some e))
      | .error ex => (w1, [req], .error ex)
    else (w1, [req], .error (.httpStatusError s))

/-- get_node_info(): lazily connects, issues one GET to /api/v1/info, raises
for transport failures and non-2xx statuses, and passes a 2xx body to
NodeInfo(**body). -/
def get_node_info (cfg : AIngleClientConfig) (net : NetOutcome)
    (w : World) : World × List Request × Except PyExc NodeInfo :=
  let w1 := ensureHttp cfg w
  let req : Request := { method := "GET", path := "/api/v1/info", body := none }
  match net with
  | .timeout => (w1, [req], .error .timeoutException)
  | .refused => (w1, [req], .error .connectError)
  | .resp s b =>
    if is2xx s then
      match NodeInfo.ofJson b with
      | .ok ni => (w1, [req], .ok ni)
      | .error ex => (w1, [req], .error ex)
    else (w1, [req], .error (.httpStatusError s))

/-- Handle for one subscription: the id of the socket it opened and of the
listener task it started. -/
structure Subscription where
  sockId : Nat
  taskId : Nat
deriving DecidableEq

/-- subscribe(callback): opens one new WebSocket connection, stores its handle
in the shared ws field of the facade (overwriting whatever was there), and
starts exactly one listener task for it. -/
def subscribe (cfg : AIngleClientConfig) (w : World) : World × Subscription :=
  let sid := w.nextId
  let tid := w.nextId + 1
  ({ w with ws := some sid,
            sockets := fun i => if i = sid then 0 else w.sockets i,
            tasks := fun i => if i = tid then false else w.tasks i,
            nextId := w.nextId + 2 },
   { sockId := sid, taskId := tid })

/-- The unsubscribe closure returned by subscribe: cancels the captured
listener task, then, if the facade ws field currently holds a socket,
schedules a close of that socket.  It reads the shared ws field at call time
and never clears it. -/
def unsubscribe (sub : Subscription) (w : World) : World :=
  let w1 : World :=
    { w with tasks := fun i => if i = sub.taskId then true else w.tasks i }
  match w1.ws with
  | some sid => { w1 with sockets := closeSock sid w1.sockets }
  | none => w1

/-- One run of the listener loop over the frames a socket delivers, in
arrival order: each frame is parsed and passed to Entry(**d) and the
resulting entry is handed to the callback before the next frame is read.
Returned are the callback arguments in invocation order, together with the
first raised exception, if any, which ends the loop. -/
def listenTrace : List Json → List Entry × Option PyExc
  | [] => ([], none)
  | m :: ms =>
    match Entry.ofJson m with
    | .error e => ([], some e)
    | .ok ent =>
      let r := listenTrace ms
      (ent :: r.1, r.2)

/-- A listener whose task has been cancelled stops at its next suspension
point: it invokes the callback on no further frames. -/
def listenerRun (cancelled : Bool) (frames : List Json) :
    List Entry × Option PyExc :=
  if cancelled then ([], none) else listenTrace frames

/-- Whether at least one close call has been issued on socket sid. -/
def sockClosed (w : World) (sid : Nat) : Bool := w.sockets sid != 0

/-- Observational equality of client worlds: same handle fields, same closed
status of every socket and same cancelled status of every task. -/
def obsEq (a b : World) : Prop :=
  a.http = b.http ∧ a.ws = b.ws ∧
  (∀ sid, sockClosed a sid = sockClosed b sid) ∧
  (∀ tid, a.tasks tid = b.tasks tid)

/-! ## Theorems about the claims -/

/-- The world returned by create_entry is always the lazily connected one. -/
theorem create_entry_fst (cfg : AIngleClientConfig) (d : Json)
    (net : NetOutcome) (w : World) :
    (create_entry cfg d net w).1 = ensureHttp cfg w := by
  unfold create_entry
  cases net with
  | timeout => rfl
  | refused => rfl
  | resp s b =>
    dsimp only
    split
    · cases b <;> first | rfl | (dsimp only; split <;> rfl)
    · rfl

/-- C4: calling create_entry, get_entry, or get_node_info on a client whose
HTTP connection has not been established first performs an implicit connect
(equivalent to calling connect()) and then proceeds with the request, and the
operation succeeds under normal conditions without a prior explicit
connect(). -/
theorem C4_lazy_connect (cfg : AIngleClientConfig) (w : World) (d : Json)
    (hs : String) (net : NetOutcome) :
    create_entry cfg d net { w with http := none }
      = create_entry cfg d net (connect cfg { w with http := none }) ∧
    get_entry cfg hs net { w with http := none }
      = get_entry cfg hs net (connect cfg { w with http := none }) ∧
    get_node_info cfg net { w with http := none }
      = get_node_info cfg net (connect cfg { w with http := none }) ∧
    (create_entry cfg d (.resp 200 (.obj [("hash", .str "h")]))
        { w with http := none }).2.2 = .ok (.str "h") ∧
    (create_entry cfg d net { w with http := none }).1.http
      = some { base_url := cfg.node_url, timeout := cfg.timeout } := by
  refine ⟨rfl, rfl, rfl, rfl, ?_⟩
  rw [create_entry_fst]
  rfl

/-- C6: disconnect() is idempotent and safe to repeat: a second disconnect()
immediately after is a no-op raising no error, and after any disconnect() the
connection state of the client equals that of a freshly constructed client,
with both handles cleared. -/
theorem C6_disconnect_idempotent (w : World) :
    disconnect (disconnect w) = disconnect w ∧
    (disconnect w).http = World.init.http ∧
    (disconnect w).ws = World.init.ws := by
  obtain ⟨hh, hw, sk, tk, ni⟩ := w
  cases hh <;> cases hw <;> exact ⟨rfl, rfl, rfl⟩

/-- C7: connect() is idempotent: it establishes the HTTP client bound to
node_url with the configured timeout, and calling connect() on an already
connected client raises no error and leaves the same connected state as a
single connect() would. -/
theorem C7_connect_idempotent (cfg : AIngleClientConfig) (w : World) :
    connect cfg (connect cfg w) = connect cfg w ∧
    (connect cfg w).http
      = some { base_url := cfg.node_url, timeout := cfg.timeout } :=
  ⟨rfl, rfl⟩

/-- C1: counterexample.  On the default client, a timed-out create_entry
request raises the transport TimeoutException, which carries no ErrorCode kind
at all, contradicting the claim that every failure carries one of the seven
fixed kinds with TIMEOUT for timeouts. -/
theorem C1_counterexample :
    (create_entry cfg0 (.str "x") .timeout World.init).2.2
      = .error .timeoutException ∧
    PyExc.kindOf .timeoutException = none :=
  ⟨rfl, rfl⟩

/-- C1 (amended): every HTTP facade operation propagates failures as the
underlying httpx exceptions and never as an AIngleError: a request that times
out raises TimeoutException, a refused connection raises ConnectError, a 500
response raises HTTPStatusError with status 500, and a 401 response raises
HTTPStatusError with status 401; none of these exceptions carries any of the
seven ErrorCode kinds. -/
theorem C1_amended (cfg : AIngleClientConfig) (w : World) (d : Json)
    (hs : String) (b : Json) :
    (create_entry cfg d .timeout w).2.2 = .error .timeoutException ∧
    (create_entry cfg d .refused w).2.2 = .error .connectError ∧
    (create_entry cfg d (.resp 500 b) w).2.2 = .error (.httpStatusError 500) ∧
    (create_entry cfg d (.resp 401 b) w).2.2 = .error (.httpStatusError 401) ∧
    (get_entry cfg hs .timeout w).2.2 = .error .timeoutException ∧
    (get_entry cfg hs .refused w).2.2 = .error .connectError ∧
    (get_entry cfg hs (.resp 500 b) w).2.2 = .error (.httpStatusError 500) ∧
    (get_entry cfg hs (.resp 401 b) w).2.2 = .error (.httpStatusError 401) ∧
    (get_node_info cfg .timeout w).2.2 = .error .timeoutException ∧
    (get_node_info cfg .refused w).2.2 = .error .connectError ∧
    (get_node_info cfg (.resp 500 b) w).2.2 = .error (.httpStatusError 500) ∧
    (get_node_info cfg (.resp 401 b) w).2.2 = .error (.httpStatusError 401) ∧
    PyExc.kindOf .timeoutException = none ∧
    PyExc.kindOf .connectError = none ∧
    (∀ s : Nat, PyExc.kindOf (.httpStatusError s) = none) :=
  ⟨rfl, rfl, rfl, rfl, rfl, rfl, rfl, rfl, rfl, rfl, rfl, rfl, rfl, rfl,
   fun _ => rfl⟩

/-- C2: counterexample.  On a 200 response whose JSON body is an object with
no hash key, create_entry raises the builtin KeyError, which carries no
ErrorCode kind, contradicting the claim that it fails with an error of kind
INVALID_ENTRY. -/
theorem C2_counterexample :
    (create_entry cfg0 (.str "x") (.resp 200 (.obj [])) World.init).2.2
      = .error (.keyError "hash") ∧
    PyExc.kindOf (.keyError "hash") = none :=
  ⟨rfl, rfl⟩

/-- C2 (amended): for every JSON-serializable data value, create_entry(data)
issues exactly one POST to /api/v1/entries with body data wrapped under the
data key; on a 2xx response whose body is an object with a hash field it
returns that field unchanged; if the 2xx object body lacks a hash field it
raises a builtin KeyError, which carries no ErrorCode kind, rather than an
error of kind INVALID_ENTRY. -/
theorem C2_amended (cfg : AIngleClientConfig) (w : World) (data : Json)
    (net : NetOutcome) (s : Nat) (kvs : List (String × Json)) (v : Json)
    (h2 : is2xx s = true) :
    (create_entry cfg data net w).2.1
      = [{ method := "POST", path := "/api/v1/entries",
           body := some (.obj [("data", data)]) }] ∧
    (kvs.lookup "hash" = some v →
      (create_entry cfg data (.resp s (.obj kvs)) w).2.2 = .ok v) ∧
    (kvs.lookup "hash" = none →
      (create_entry cfg data (.resp s (.obj kvs)) w).2.2
        = .error (.keyError "hash") ∧
      PyExc.kindOf (.keyError "hash") = none) := by
  refine ⟨?_, ?_, ?_⟩
  · unfold create_entry
    cases net with
    | timeout => rfl
    | refused => rfl
    | resp s2 b =>
      dsimp only
      split
      · cases b <;> first | rfl | (dsimp only; split <;> rfl)
      · rfl
  · intro hv
    simp [create_entry, h2, hv]
  · intro hv
    simp [create_entry, h2, hv, PyExc.kindOf]

/-- C2 (amended) witness at concrete inputs: a 200 response with body
containing hash h returns the string h. -/
theorem C2_amended_witness :
    (create_entry cfg0 (.str "x")
        (.resp 200 (.obj [("hash", .str "h")])) World.init).2.2
      = .ok (.str "h") :=
  (C2_amended cfg0 World.init (.str "x")
      (.resp 200 (.obj [("hash", .str "h")])) 200 [("hash", .str "h")]
      (.str "h") rfl).2.1 rfl

/-- Key-value list of a well-formed entry body with hash a. -/
def kvsA : List (String × Json) :=
  [("hash", .str "a"), ("author", .str "alice"), ("parents", .arr []),
   ("data", .null), ("timestamp", .num 1), ("sequence", .num 0),
   ("signature", .str "sg")]

/-- A well-formed entry body with hash a. -/
def frameA : Json := .obj kvsA

/-- The Entry that frameA parses to. -/
def entryA : Entry :=
  { hash := .str "a", author := .str "alice", parents := .arr [],
    data := .null, timestamp := .num 1, sequence := .num 0,
    signature := .str "sg" }

/-- A well-formed entry body with hash b. -/
def frameB : Json :=
  .obj [("hash", .str "b"), ("author", .str "alice"), ("parents", .arr []),
        ("data", .null), ("timestamp", .num 2), ("sequence", .num 1),
        ("signature", .str "sg")]

/-- The Entry that frameB parses to. -/
def entryB : Entry :=
  { hash := .str "b", author := .str "alice", parents := .arr [],
    data := .null, timestamp := .num 2, sequence := .num 1,
    signature := .str "sg" }

/-- A 200 response body for get_entry with all seven keys present but whose
hash value is a number rather than a string. -/
def bodyMistypedHash : Json :=
  .obj [("hash", .num 5), ("author", .str "alice"), ("parents", .arr []),
        ("data", .null), ("timestamp", .num 1), ("sequence", .num 0),
        ("signature", .str "sg")]

/-- C3: counterexample.  On a 200 response whose body has a mistyped hash
field (a number instead of a string), get_entry succeeds and returns the
entry rather than failing with an error of kind INVALID_ENTRY; and on a 200
body with required fields missing it raises a builtin TypeError, which
carries no ErrorCode kind. -/
theorem C3_counterexample :
    (get_entry cfg0 "h" (.resp 200 bodyMistypedHash) World.init).2.2
      = .ok (some { hash := .num 5, author := .str "alice",
                    parents := .arr [], data := .null, timestamp := .num 1,
                    sequence := .num 0, signature := .str "sg" }) ∧
    (get_entry cfg0 "h" (.resp 200 (.obj [("hash", .str "a")]))
        World.init).2.2 = .error (.typeError "missing required argument") ∧
    PyExc.kindOf (.typeError "missing required argument") = none :=
  ⟨rfl, rfl, rfl⟩

/-- C3 (amended): get_entry(hash) returns the absent value (None) if and only
if the server responds 404 for that path; on a 2xx response whose body is an
object with exactly the seven required keys, the returned Entry fields equal
the response body fields exactly, with no runtime type checking, so mistyped
values are accepted; when a required field is missing from the 2xx body the
operation raises a builtin TypeError, which carries no ErrorCode kind, rather
than an error of kind INVALID_ENTRY. -/
theorem C3_amended (cfg : AIngleClientConfig) (w : World) (hs : String) :
    (∀ net, (get_entry cfg hs net w).2.2 = .ok none ↔
        ∃ b, net = .resp 404 b) ∧
    (∀ (s : Nat) (kvs : List (String × Json)) (h a p d t q g : Json),
      is2xx s = true →
      kvs.lookup "hash" = some h → kvs.lookup "author" = some a →
      kvs.lookup "parents" = some p → kvs.lookup "data" = some d →
      kvs.lookup "timestamp" = some t → kvs.lookup "sequence" = some q →
      kvs.lookup "signature" = some g →
      kvs.all (fun kv => entryKeys.contains kv.1) = true →
      (get_entry cfg hs (.resp s (.obj kvs)) w).2.2
        = .ok (some { hash := h, author := a, parents := p, data := d,
                      timestamp := t, sequence := q, signature := g })) ∧
    (∀ (s : Nat) (kvs : List (String × Json)),
      is2xx s = true → kvs.lookup "author" = none →
      (get_entry cfg hs (.resp s (.obj kvs)) w).2.2
        = .error (.typeError "missing required argument") ∧
      PyExc.kindOf (.typeError "missing required argument") = none) := by
  refine ⟨?_, ?_, ?_⟩
  · intro net
    cases net with
    | timeout => simp [get_entry]
    | refused => simp [get_entry]
    | resp s b =>
      by_cases h404 : s = 404
      · subst h404
        simp [get_entry]
      · by_cases h2 : is2xx s
        · rcases hof : Entry.ofJson b with ex | ent <;>
            simp [get_entry, h404, h2, hof]
        · simp [get_entry, h404, h2]
  · intro s kvs h a p d t q g h2 hh ha hp hd ht hq hg hall
    have h404 : s ≠ 404 := fun e => by
      rw [e] at h2
      exact absurd h2 (by decide)
    simp only [get_entry, ensureHttp, Entry.ofJson, hh, ha, hp, hd, ht, hq,
      hg, if_neg h404, h2, if_true]
    rw [if_pos hall]
  · intro s kvs h2 hnone
    have h404 : s ≠ 404 := fun e => by
      rw [e] at h2
      exact absurd h2 (by decide)
    refine ⟨?_, rfl⟩
    rcases hh : kvs.lookup "hash" with _ | hv <;>
      simp [get_entry, h404, h2, Entry.ofJson, hh, hnone]

/-- C3 (amended) witness at concrete inputs: a 404 maps to the absent value,
and a 200 response with the well-formed body frameA parses to entryA, whose
fields equal the body fields. -/
theorem C3_amended_witness :
    ((get_entry cfg0 "a" (.resp 404 .null) World.init).2.2
        = .ok none ↔ ∃ b, (NetOutcome.resp 404 .null) = .resp 404 b) ∧
    (get_entry cfg0 "a" (.resp 200 frameA) World.init).2.2
      = .ok (some entryA) :=
  ⟨(C3_amended cfg0 World.init "a").1 (.resp 404 .null),
   (C3_amended cfg0 World.init "a").2.1 200 kvsA (.str "a") (.str "alice")
     (.arr []) .null (.num 1) (.num 0) (.str "sg")
     rfl rfl rfl rfl rfl rfl rfl rfl rfl⟩

/-- C5: counterexample.  Starting from a fresh client, two subscribe calls
produce two subscriptions with distinct sockets, yet invoking the FIRST
subscription's unsubscribe handle closes the SECOND subscription's socket and
leaves the first subscription's own socket open: the listeners share the
facade ws field, so they are not independent. -/
theorem C5_counterexample :
    sockClosed
        (unsubscribe (subscribe cfg0 World.init).2
          (subscribe cfg0 (subscribe cfg0 World.init).1).1)
        (subscribe cfg0 (subscribe cfg0 World.init).1).2.sockId = true ∧
    sockClosed
        (unsubscribe (subscribe cfg0 World.init).2
          (subscribe cfg0 (subscribe cfg0 World.init).1).1)
        (subscribe cfg0 World.init).2.sockId = false ∧
    ((subscribe cfg0 World.init).2.sockId
      != (subscribe cfg0 (subscribe cfg0 World.init).1).2.sockId) = true :=
  ⟨rfl, rfl, rfl⟩

/-- C5 (amended): every subscribe call opens exactly one new WebSocket
connection and starts exactly one new listener task, but it stores the socket
in the shared ws field of the facade, overwriting the previous value; an
unsubscribe handle cancels its own listener task, yet it closes whichever
socket the shared ws field holds at call time, the most recently opened one,
so two subscriptions on the same client share that field and are not
independent. -/
theorem C5_amended (cfg : AIngleClientConfig) (w : World) :
    (subscribe cfg w).1.ws = some (subscribe cfg w).2.sockId ∧
    (subscribe cfg w).1.nextId = w.nextId + 2 ∧
    sockClosed (subscribe cfg w).1 (subscribe cfg w).2.sockId = false ∧
    (subscribe cfg w).1.tasks (subscribe cfg w).2.taskId = false ∧
    (∀ (sub : Subscription) (w2 : World) (sid : Nat), w2.ws = some sid →
      (unsubscribe sub w2).tasks sub.taskId = true ∧
      (unsubscribe sub w2).sockets sid = w2.sockets sid + 1) := by
  refine ⟨rfl, rfl, ?_, ?_, ?_⟩
  · simp [subscribe, sockClosed]
  · simp [subscribe]
  · intro sub w2 sid hws
    unfold unsubscribe
    rw [hws]
    exact ⟨by simp, by simp [closeSock]⟩

/-- C5 (amended) witness at concrete inputs: one subscribe on a fresh
client followed by its own unsubscribe cancels the task and closes the
stored socket. -/
theorem C5_amended_witness :
    (unsubscribe (subscribe cfg0 World.init).2
        (subscribe cfg0 World.init).1).tasks
      (subscribe cfg0 World.init).2.taskId = true ∧
    (unsubscribe (subscribe cfg0 World.init).2
        (subscribe cfg0 World.init).1).sockets 0
      = (subscribe cfg0 World.init).1.sockets 0 + 1 :=
  (C5_amended cfg0 World.init).2.2.2.2 (subscribe cfg0 World.init).2
    (subscribe cfg0 World.init).1 0 rfl

/-- C8: within one listener, frames are processed strictly in arrival order,
one at a time: the trace of callback invocations equals the parsed frames in
order, the callback for an earlier frame always running before the one for a
later frame and the next frame not being read until the previous callback
has returned. -/
theorem C8_frames_in_order (frames : List Json) (es : List Entry)
    (h : frames.map Entry.ofJson = es.map Except.ok) :
    listenTrace frames = (es, none) := by
  induction frames generalizing es with
  | nil =>
    cases es with
    | nil => rfl
    | cons e es2 => simp at h
  | cons f fs ih =>
    cases es with
    | nil => simp at h
    | cons e es2 =>
      simp only [List.map_cons, List.cons.injEq] at h
      obtain ⟨h1, h2⟩ := h
      simp [listenTrace, h1, ih es2 h2]

/-- C8 witness at concrete inputs: a server emitting frameA (hash a) and then
frameB (hash b) makes the callback run first on entryA, whose hash is a, and
then on entryB, whose hash is b. -/
theorem C8_frames_in_order_witness :
    listenTrace [frameA, frameB] = ([entryA, entryB], none) ∧
    entryA.hash = .str "a" ∧ entryB.hash = .str "b" :=
  ⟨C8_frames_in_order [frameA, frameB] [entryA, entryB] rfl, rfl, rfl⟩

/-- C9: invoking the unsubscribe handle returned by subscribe more than once
is safe: the second invocation raises no error and changes no observable
state compared to the first, and once the first invocation has cancelled the
listener task the callback is invoked on no further frames. -/
theorem C9_unsubscribe_repeat_safe (cfg : AIngleClientConfig) (w : World) :
    obsEq
      (unsubscribe (subscribe cfg w).2
        (unsubscribe (subscribe cfg w).2 (subscribe cfg w).1))
      (unsubscribe (subscribe cfg w).2 (subscribe cfg w).1) ∧
    (unsubscribe (subscribe cfg w).2 (subscribe cfg w).1).tasks
      (subscribe cfg w).2.taskId = true ∧
    (∀ frames,
      listenerRun
        ((unsubscribe (subscribe cfg w).2 (subscribe cfg w).1).tasks
          (subscribe cfg w).2.taskId) frames = ([], none)) := by
  refine ⟨⟨?_, ?_, ?_, ?_⟩, ?_, ?_⟩
  · simp [unsubscribe, subscribe]
  · simp [unsubscribe, subscribe]
  · intro sid
    by_cases hsid : sid = w.nextId <;>
      simp [unsubscribe, subscribe, sockClosed, closeSock, hsid]
  · intro tid
    simp [unsubscribe, subscribe]
  · simp [unsubscribe, subscribe]
  · intro frames
    simp [unsubscribe, subscribe, listenerRun]

/-- C10: the unsubscribe handle never clears the stored WebSocket reference:
after a subscribe and its unsubscribe, the ws field still holds that
subscription's socket, so a following disconnect() issues a second close on
that same socket; and after two subscribes, disconnect() references only the
most recently opened subscription socket, closing it once and never touching
the earlier one. -/
theorem C10_ws_reference_retained (cfg cfg2 : AIngleClientConfig)
    (w : World) :
    (unsubscribe (subscribe cfg w).2 (subscribe cfg w).1).ws
      = some (subscribe cfg w).2.sockId ∧
    (disconnect (unsubscribe (subscribe cfg w).2 (subscribe cfg w).1)).sockets
      (subscribe cfg w).2.sockId = 2 ∧
    (subscribe cfg2 (subscribe cfg w).1).1.ws
      = some (subscribe cfg2 (subscribe cfg w).1).2.sockId ∧
    (disconnect (subscribe cfg2 (subscribe cfg w).1).1).sockets
      (subscribe cfg2 (subscribe cfg w).1).2.sockId = 1 ∧
    (disconnect (subscribe cfg2 (subscribe cfg w).1).1).sockets
      (subscribe cfg w).2.sockId = 0 := by
  refine ⟨rfl, ?_, rfl, ?_, ?_⟩
  · cases hh : (subscribe cfg w).1.http <;>
      simp [subscribe, unsubscribe, disconnect, closeSock] at hh ⊢ <;>
      simp [hh, closeSock]
  · cases hh : w.http <;>
      simp [subscribe, disconnect, closeSock, hh]
  · cases hh : w.http <;>
      simp [subscribe, disconnect, closeSock, hh]

end AIngle
